/-
A shallow embedding of KAppMan's core integration/removal logic
(`src/kappman/core.py`) and of the watcher's event handler
(`src/kappman/watcher.py`), with theorems settling the spec claims.

Modelling conventions:
- Paths are strings.  `os.path.expanduser` / `os.path.abspath` are modelled
  for tilde expansion and cwd-prefixing; component normalisation (`..`, `.`)
  is not modelled — the claims are settled on already-normalised paths.
- The text of a descriptor file is modelled as its list of lines
  (Python writes lines joined by `"\n"` with a trailing newline, and reads
  them back with `splitlines()`); a substring test against the full text for
  a newline-free pattern such as `"X-KAppMan-Source="` is equivalent to a
  substring test against some line, which is how `markerIn` is stated.
- The filesystem is an explicit state record threaded through each
  operation.  Python exceptions that escape a function are modelled with
  `Except`; the state reached before the exception is returned alongside it,
  since a raising Python call leaves its earlier mutations in place.
- `Path.chmod` can raise `PermissionError` (POSIX `EPERM`, e.g. the caller
  does not own the file); the source does not wrap it in `try`.  Each file
  therefore carries an `owned` flag telling whether chmod succeeds on it.
-/
import Mathlib

namespace KAppMan

/-! ### String helpers (Python primitives used by the source) -/

/-- Python `str.endswith`. -/
def pyEndswith (s suffix : String) : Bool :=
  suffix.data.isSuffixOf s.data

/-- Python `name[: -n]` for `0 < n ≤ len name`: drop the last `n` characters. -/
def dropLastChars (s : String) (n : Nat) : String :=
  String.mk (s.data.take (s.data.length - n))

/-- Python `str.lower` (ASCII case folding, as used on file paths). -/
def pyLower (s : String) : String :=
  String.mk (s.data.map Char.toLower)

/-- Python `str.startswith`. -/
def pyStartswith (s pre : String) : Bool :=
  pre.data.isPrefixOf s.data

/-- Python `pattern in text` (substring containment). -/
def strContainsSub (s pat : String) : Bool :=
  s.data.tails.any (fun t => pat.data.isPrefixOf t)

/-- Python `line.split("=", 1)[1]`: everything after the first `'='`
(total: returns `""` when the line has no `'='`). -/
def afterFirstEq (l : String) : String :=
  String.mk ((l.data.dropWhile (fun c => c ≠ '=')).tail)

/-- The part of a line before its first `'='`. -/
def beforeFirstEq (l : String) : String :=
  String.mk (l.data.takeWhile (fun c => c ≠ '='))

/-- Parse a `key=value` line; `none` when the line contains no `'='`. -/
def parseKV (l : String) : Option (String × String) :=
  if '=' ∈ l.data then some (beforeFirstEq l, afterFirstEq l) else none

/-- Python `os.path.expanduser`: expand a leading `~` to the home directory. -/
def pyExpanduser (home p : String) : String :=
  if p = "~" then home
  else if pyStartswith p "~/" then home ++ String.mk p.data.tail
  else p

/-- Python `os.path.abspath` restricted to tilde-free inputs: prefix the cwd when
the path is relative (component normalisation is not modelled). -/
def pyAbspath (cwd p : String) : String :=
  if pyStartswith p "/" then p else cwd ++ "/" ++ p

/-- Split a character list at every occurrence of `c` (Python `str.split`). -/
def splitOnChar (c : Char) : List Char → List (List Char)
  | [] => [[]]
  | x :: xs =>
      match splitOnChar c xs with
      | r :: rs => if x = c then [] :: r :: rs else (x :: r) :: rs
      | [] => [[]]

/-- Python `pathlib.Path(p).name`: the final non-empty path component (on the
normalised absolute paths the core works with). -/
def pathName (p : String) : String :=
  String.mk (((splitOnChar '/' p.data).filter (fun s => s ≠ [])).getLastD [])

/-! ### Filesystem model -/

/-- Metadata of a regular file (a candidate bundle): its mode bits, and
whether the calling user may `chmod` it (`False` models a POSIX `EPERM`). -/
structure FileInfo where
  mode : Nat
  owned : Bool
deriving Repr, DecidableEq

/-- Filesystem state as seen by `kappman.core`:
the two well-known directories, the `.desktop` files in
`APPLICATIONS_DIR` (keyed by stem, value = list of text lines), the file
names present in `ICONS_DIR`, and the regular files keyed by absolute
path. -/
structure FS where
  appsDir : Bool
  iconsDir : Bool
  desktop : List (String × List String)
  icons : List String
  files : List (String × FileInfo)
deriving Repr, DecidableEq

/-! ### kappman.core -/

def APPLICATIONS_DIR (home : String) : String :=
  home ++ "/.local/share/applications"

def ICONS_DIR (home : String) : String :=
  home ++ "/.local/share/icons/kappman"

/-- Source `_ensure_dirs`: `mkdir(parents=True, exist_ok=True)` on both dirs. -/
def ensure_dirs (fs : FS) : FS :=
  { fs with appsDir := true, iconsDir := true }

/-- Source `_desktop_path`: `APPLICATIONS_DIR / f"{app_name}.desktop"`. -/
def desktop_path (home app_name : String) : String :=
  APPLICATIONS_DIR home ++ "/" ++ app_name ++ ".desktop"

/-- Source `_sanitize_name`, inner loop: strip `".AppImage"` then `".appimage"`,
exactly as the source's `for suffix in (".AppImage", ".appimage")`. -/
def stripBundleSuffix (name : String) : String :=
  if pyEndswith name ".AppImage" then dropLastChars name 9
  else if pyEndswith name ".appimage" then dropLastChars name 9
  else name

/-- Source `_sanitize_name(file_path)`: display name from `file_path.name`. -/
def sanitize_name (file_path : String) : String :=
  stripBundleSuffix (pathName file_path)

/-- Modelled from the spec: the claim's reading of step 3 of `integrate`,
"stripping a trailing case-sensitive `.AppImage` or case-insensitive
`.appimage`-style suffix if present" — i.e. the second test matches any
case variant.  Kept for comparison with the source's `sanitize_name`. -/
def spec_sanitize_name (file_path : String) : String :=
  let name := pathName file_path
  if pyEndswith name ".AppImage" then dropLastChars name 9
  else if pyEndswith (pyLower name) ".appimage" then dropLastChars name 9
  else name

/-- Outcome of the icon-extraction environment (`unsquashfs`, the temp dir,
the unpacked tree).  `raises` covers any exception inside the `try`,
including `subprocess.TimeoutExpired` from the 15-second timeout;
`noCandidate` is a clean unpack in which no `*.png`/`*.svg`/`.DirIcon`
candidate is found; `found ext` is a first candidate with suffix `ext`. -/
inductive ExtractEnv where
  | noTool
  | raises
  | noCandidate
  | found (ext : String)
deriving Repr, DecidableEq

/-- Source `_extract_icon`: best-effort icon extraction.  Returns the (possibly
updated) filesystem and the extracted icon path, `none` on any failure.
All three failure modes return `none` and leave the filesystem unchanged;
only a found candidate copies `f"{app_name}{src.suffix}"` into
`ICONS_DIR`. -/
def extract_icon (env : ExtractEnv) (home : String) (fs : FS)
    (app_name : String) : FS × Option String :=
  match env with
  | .noTool => (fs, none)
  | .raises => (fs, none)
  | .noCandidate => (fs, none)
  | .found ext =>
      let fname := app_name ++ ext
      ({ fs with icons := fname :: fs.icons.filter (fun n => n ≠ fname) },
       some (ICONS_DIR home ++ "/" ++ fname))

/-- Python exceptions that can escape `integrate_appimage`. -/
inductive PyErr where
  | fileNotFound (path : String)
  | permissionError (path : String)
deriving Repr, DecidableEq

/-- The dict returned by `integrate_appimage`. -/
structure IntegrateResult where
  app_name : String
  exec_path : String
  desktop_path : String
  icon_path : Option String
deriving Repr, DecidableEq

/-- The lines of the descriptor written by `integrate_appimage`
(the f-string `desktop_content`, split at its `"\n"` separators). -/
def desktop_lines (app_name path icon_value : String) : List String :=
  ["[Desktop Entry]",
   "Name=" ++ app_name,
   "Exec=" ++ path,
   "Icon=" ++ icon_value,
   "Type=Application",
   "Categories=Utility;",
   "Terminal=false",
   "StartupNotify=true",
   "Comment=AppImage managed by KAppMan",
   "X-KAppMan-Source=" ++ path]

def S_IXUSR : Nat := 64
def S_IXGRP : Nat := 8
def S_IXOTH : Nat := 1

/-- Source `path.chmod(current_mode | S_IXUSR | S_IXGRP | S_IXOTH)` on an owned
file: set the three execute bits, preserving all other mode bits. -/
def do_chmod (fs : FS) (path : String) : FS :=
  { fs with files := fs.files.map (fun e =>
      if e.1 = path then
        (e.1, { e.2 with mode := e.2.mode.lor (S_IXUSR.lor (S_IXGRP.lor S_IXOTH)) })
      else e) }

/-- Source `dp.write_text(...)`: overwrite (or create) the descriptor file. -/
def write_desktop (fs : FS) (app_name : String) (lines : List String) : FS :=
  { fs with desktop := (app_name, lines) :: fs.desktop.filter (fun e => e.1 ≠ app_name) }

/-- Source `integrate_appimage(file_path)`.  Returns the filesystem reached
(also when an exception escapes) together with the result dict or the
escaping exception. -/
def integrate_appimage (env : ExtractEnv) (home cwd : String) (fs : FS)
    (file_path : String) : FS × Except PyErr IntegrateResult :=
  let fs1 := ensure_dirs fs
  let path := pyAbspath cwd (pyExpanduser home file_path)
  match List.lookup path fs1.files with
  | none => (fs1, .error (.fileNotFound path))
  | some info =>
      if info.owned then
        let fs2 := do_chmod fs1 path
        let app_name := sanitize_name path
        let ext := extract_icon env home fs2 app_name
        let fs3 := ext.1
        let icon_path := ext.2
        let icon_value := icon_path.getD "application-x-executable"
        let dlines := desktop_lines app_name path icon_value
        let dp := desktop_path home app_name
        let fs4 := write_desktop fs3 app_name dlines
        (fs4, .ok { app_name := app_name, exec_path := path,
                    desktop_path := dp, icon_path := icon_path })
      else (fs1, .error (.permissionError path))

/-- The `for suffix in (".png", ".svg", "")` loop of `remove_appimage`:
delete the first icon file `f"{app_name}{suffix}"` that exists, then stop. -/
def remove_first_icon (fs : FS) (app_name : String) : FS :=
  match [".png", ".svg", ""].find? (fun suf => fs.icons.contains (app_name ++ suf)) with
  | some suf => { fs with icons := fs.icons.erase (app_name ++ suf) }
  | none => fs

/-- Source `remove_appimage(file_path)`: no existence check on the bundle; delete
the matching descriptor (if any) and then its icon. -/
def remove_appimage (home cwd : String) (fs : FS) (file_path : String) :
    FS × Bool :=
  let path := pyAbspath cwd (pyExpanduser home file_path)
  let app_name := sanitize_name path
  match List.lookup app_name fs.desktop with
  | none => (fs, false)
  | some _ =>
      let fs1 := { fs with desktop := fs.desktop.filter (fun e => e.1 ≠ app_name) }
      (remove_first_icon fs1 app_name, true)

/-- Source test `"X-KAppMan-Source=" in content`: the pattern is newline-free, so the
substring test on the full text is the substring test on some line. -/
def markerIn (lines : List String) : Bool :=
  lines.any (fun l => strContainsSub l "X-KAppMan-Source=")

/-- The `for line in content.splitlines()` loop of `list_integrated`:
the value of the first line starting with the marker key, else `""`. -/
def markerValue (lines : List String) : String :=
  match lines.find? (fun l => pyStartswith l "X-KAppMan-Source=") with
  | some l => afterFirstEq l
  | none => ""

/-- One item of the list returned by `list_integrated`. -/
structure ListEntry where
  app_name : String
  exec_path : String
  desktop_path : String
deriving Repr, DecidableEq

/-- Source `sorted(APPLICATIONS_DIR.glob("*.desktop"))`: the directory's
`.desktop` files in filename order (the shared directory prefix does not
affect the order). -/
def sortedDesktopFiles (fs : FS) : List (String × List String) :=
  fs.desktop.mergeSort (fun a b => a.1 ++ ".desktop" ≤ b.1 ++ ".desktop")

/-- Source `list_integrated()`: scan `.desktop` files, keep only those whose text
contains the marker key. -/
def list_integrated (home : String) (fs : FS) : List ListEntry :=
  if fs.appsDir then
    (sortedDesktopFiles fs).filterMap (fun e =>
      if markerIn e.2 then
        some { app_name := e.1, exec_path := markerValue e.2,
               desktop_path := desktop_path home e.1 }
      else none)
  else []

/-! ### kappman.watcher — `AppImageEventHandler`

The handler's effect is modelled as the list of core calls it performs
(`integrate_appimage` / `remove_appimage`), in order.  `on_created` wraps
its `integrate_appimage` call in `try/except`, which does not change which
call is made. -/

/-- A call dispatched by the event handler to `kappman.core`. -/
inductive WatchAction where
  | integrate (path : String)
  | remove (path : String)
deriving Repr, DecidableEq

/-- A watchdog `FileCreatedEvent` / `FileDeletedEvent` (synthetic ones,
built as `FileCreatedEvent(path)`, carry `is_directory = False`). -/
structure FileEvent where
  is_directory : Bool
  src_path : String
deriving Repr, DecidableEq

/-- A watchdog `FileMovedEvent`. -/
structure MovedEvent where
  is_directory : Bool
  src_path : String
  dest_path : String
deriving Repr, DecidableEq

/-- Source `AppImageEventHandler._is_appimage`: `path.lower().endswith(".appimage")`. -/
def is_appimage (path : String) : Bool :=
  pyEndswith (pyLower path) ".appimage"

/-- Source `AppImageEventHandler.on_created`. -/
def on_created (e : FileEvent) : List WatchAction :=
  if e.is_directory || !is_appimage e.src_path then []
  else [.integrate e.src_path]

/-- Source `AppImageEventHandler.on_deleted`. -/
def on_deleted (e : FileEvent) : List WatchAction :=
  if e.is_directory || !is_appimage e.src_path then []
  else [.remove e.src_path]

/-- Source `AppImageEventHandler.on_moved`: decompose a move into a synthetic
deletion of the old path and a synthetic creation of the new path, each
behind the `_is_appimage` filter. -/
def on_moved (e : MovedEvent) : List WatchAction :=
  if e.is_directory then []
  else
    (if is_appimage e.src_path then on_deleted ⟨false, e.src_path⟩ else []) ++
    (if is_appimage e.dest_path then on_created ⟨false, e.dest_path⟩ else [])

/-! ### Helper lemmas -/

theorem lookup_filter_key_self {β : Type} (a : String) (l : List (String × β)) :
    List.lookup a (l.filter (fun e => e.1 ≠ a)) = none := by
  induction l with
  | nil => rfl
  | cons e t ih =>
      obtain ⟨k, v⟩ := e
      by_cases h : k = a
      · simpa [List.filter_cons, h] using ih
      · rw [List.filter_cons, if_pos (by simp [h]), List.lookup_cons]
        simp only [show (a == k) = false from beq_eq_false_iff_ne.mpr (Ne.symm h)]
        exact ih

theorem lookup_of_mem_nodup {β : Type} {l : List (String × β)}
    (hnd : (l.map Prod.fst).Nodup) {a : String} {b : β}
    (hm : (a, b) ∈ l) : List.lookup a l = some b := by
  induction l with
  | nil => cases hm
  | cons e t ih =>
      obtain ⟨k, v⟩ := e
      simp only [List.map_cons, List.nodup_cons] at hnd
      rcases List.mem_cons.mp hm with heq | hmem
      · obtain ⟨rfl, rfl⟩ := Prod.mk.injEq .. ▸ heq
        simp [List.lookup_cons]
      · have hak : a ≠ k := by
          rintro rfl
          exact hnd.1 (List.mem_map.mpr ⟨(a, b), hmem, rfl⟩)
        simp [List.lookup_cons, ih hnd.2 hmem,
              show (a == k) = false from beq_eq_false_iff_ne.mpr hak]

theorem remove_first_icon_desktop (fs : FS) (a : String) :
    (remove_first_icon fs a).desktop = fs.desktop := by
  unfold remove_first_icon
  split <;> rfl

theorem extract_icon_appsDir (env : ExtractEnv) (home : String) (fs : FS)
    (a : String) : (extract_icon env home fs a).1.appsDir = fs.appsDir := by
  cases env <;> rfl

theorem extract_icon_iconsDir (env : ExtractEnv) (home : String) (fs : FS)
    (a : String) : (extract_icon env home fs a).1.iconsDir = fs.iconsDir := by
  cases env <;> rfl

theorem extract_icon_desktop (env : ExtractEnv) (home : String) (fs : FS)
    (a : String) : (extract_icon env home fs a).1.desktop = fs.desktop := by
  cases env <;> rfl

theorem pyEndswith_append (base s : String) : pyEndswith (base ++ s) s = true := by
  unfold pyEndswith
  rw [List.isSuffixOf_iff_suffix, String.data_append]
  exact List.suffix_append base.data s.data

theorem pyEndswith_same_length {n s1 s2 : String} (h1 : pyEndswith n s1 = true)
    (h2 : pyEndswith n s2 = true) (hl : s1.data.length = s2.data.length) :
    s1 = s2 := by
  unfold pyEndswith at h1 h2
  rw [List.isSuffixOf_iff_suffix, List.suffix_iff_eq_drop] at h1 h2
  have hd : s1.data = s2.data := by rw [h1, h2, hl]
  calc s1 = String.mk s1.data := rfl
    _ = String.mk s2.data := by rw [hd]
    _ = s2 := rfl

theorem dropLastChars_append (base s : String) :
    dropLastChars (base ++ s) s.data.length = base := by
  unfold dropLastChars
  rw [String.data_append, List.length_append, Nat.add_sub_cancel, List.take_left]

theorem takeWhile_append_eqchar (l1 l2 : List Char) (h : '=' ∉ l1) :
    (l1 ++ '=' :: l2).takeWhile (fun c => c ≠ '=') = l1 := by
  induction l1 with
  | nil => simp [List.takeWhile_cons]
  | cons x xs ih =>
      simp only [List.mem_cons, not_or] at h
      have hx : x ≠ '=' := fun hh => h.1 hh.symm
      rw [List.cons_append, List.takeWhile_cons, if_pos (by simp [hx]), ih h.2]

theorem dropWhile_append_eqchar (l1 l2 : List Char) (h : '=' ∉ l1) :
    (l1 ++ '=' :: l2).dropWhile (fun c => c ≠ '=') = '=' :: l2 := by
  induction l1 with
  | nil => simp [List.dropWhile_cons]
  | cons x xs ih =>
      simp only [List.mem_cons, not_or] at h
      have hx : x ≠ '=' := fun hh => h.1 hh.symm
      rw [List.cons_append, List.dropWhile_cons, if_pos (by simp [hx]), ih h.2]

theorem parseKV_key_value (key s : String) (hk : '=' ∉ key.data) :
    parseKV (key ++ "=" ++ s) = some (key, s) := by
  have hd : (key ++ "=" ++ s).data = key.data ++ '=' :: s.data := by
    rw [String.data_append, String.data_append]
    simp [show ("=" : String).data = ['='] from rfl]
  unfold parseKV beforeFirstEq afterFirstEq
  rw [hd]
  rw [if_pos (by simp), takeWhile_append_eqchar _ _ hk, dropWhile_append_eqchar _ _ hk]
  rfl

/-! ### Claim theorems -/

/-- C3 (counterexample): the claim's case-insensitive reading of suffix
stripping fails on the code: for the bundle name `Foo.APPIMAGE` the code's
`_sanitize_name` leaves the name unchanged, while the claimed
case-insensitive rule would strip it to `Foo`. -/
theorem sanitize_name_not_case_insensitive :
    sanitize_name "/a/Foo.APPIMAGE" = "Foo.APPIMAGE" ∧
    spec_sanitize_name "/a/Foo.APPIMAGE" = "Foo" ∧
    ("Foo.APPIMAGE" : String) ≠ "Foo" := by
  refine ⟨by decide, by decide, by decide⟩

/-- C3 (amended): `_sanitize_name` strips a trailing exact `.AppImage` or
exact lowercase `.appimage` suffix from the filename and otherwise leaves
the filename unchanged (other case variants are not stripped); in
particular `Foo.AppImage ↦ Foo`, `foo.appimage ↦ foo`,
`NoSuffix ↦ NoSuffix`. -/
theorem sanitize_name_exact_suffixes (p : String) :
    (∀ base, pathName p = base ++ ".AppImage" → sanitize_name p = base) ∧
    (∀ base, pathName p = base ++ ".appimage" → sanitize_name p = base) ∧
    (pyEndswith (pathName p) ".AppImage" = false →
      pyEndswith (pathName p) ".appimage" = false →
      sanitize_name p = pathName p) := by
  refine ⟨?_, ?_, ?_⟩
  · intro base hb
    unfold sanitize_name stripBundleSuffix
    rw [hb]
    simp only [pyEndswith_append, if_true]
    have h9 : (9 : Nat) = (".AppImage" : String).data.length := by decide
    rw [h9, dropLastChars_append]
  · intro base hb
    have hA : pyEndswith (base ++ ".appimage") ".AppImage" = false := by
      cases hE : pyEndswith (base ++ ".appimage") ".AppImage" with
      | false => rfl
      | true =>
          have heq := pyEndswith_same_length hE
            (pyEndswith_append base ".appimage") (by decide)
          exact absurd heq (by decide)
    unfold sanitize_name stripBundleSuffix
    rw [hb]
    simp only [hA, pyEndswith_append, Bool.false_eq_true, if_false, if_true]
    have h9 : (9 : Nat) = (".appimage" : String).data.length := by decide
    rw [h9, dropLastChars_append]
  · intro h1 h2
    unfold sanitize_name stripBundleSuffix
    simp [h1, h2]

/-- C3 (witness): the amended statement at the spec's concrete examples
and at the mixed-case name that the code leaves unchanged. -/
theorem sanitize_name_exact_suffixes_witness :
    sanitize_name "/a/Foo.AppImage" = "Foo" ∧
    sanitize_name "/a/foo.appimage" = "foo" ∧
    sanitize_name "/a/NoSuffix" = "NoSuffix" ∧
    sanitize_name "/a/Foo.APPIMAGE" = "Foo.APPIMAGE" := by
  refine ⟨(sanitize_name_exact_suffixes "/a/Foo.AppImage").1 "Foo" (by decide),
          (sanitize_name_exact_suffixes "/a/foo.appimage").2.1 "foo" (by decide),
          (sanitize_name_exact_suffixes "/a/NoSuffix").2.2 (by decide) (by decide),
          (sanitize_name_exact_suffixes "/a/Foo.APPIMAGE").2.2 (by decide) (by decide)⟩

/-- C4: when the resolved bundle path does not exist, `integrate_appimage`
raises `FileNotFoundError` and the applications directory's `.desktop`
entries are exactly what they were before the call. -/
theorem integrate_notfound_writes_no_descriptor
    (env : ExtractEnv) (home cwd : String) (fs : FS) (p : String)
    (h : List.lookup (pyAbspath cwd (pyExpanduser home p)) fs.files = none) :
    (integrate_appimage env home cwd fs p).2 =
      .error (.fileNotFound (pyAbspath cwd (pyExpanduser home p))) ∧
    (integrate_appimage env home cwd fs p).1.desktop = fs.desktop := by
  unfold integrate_appimage
  simp only [ensure_dirs]
  rw [show ({ fs with appsDir := true, iconsDir := true } : FS).files = fs.files from rfl, h]
  exact ⟨rfl, rfl⟩

/-- C4 (witness): a concrete failed call writes nothing. -/
theorem integrate_notfound_writes_no_descriptor_witness :
    (integrate_appimage .noTool "/h" "/c"
        ⟨false, false, [("Other", ["[Desktop Entry]"])], [], []⟩
        "/a/Ghost.AppImage").2 =
      .error (.fileNotFound "/a/Ghost.AppImage") ∧
    (integrate_appimage .noTool "/h" "/c"
        ⟨false, false, [("Other", ["[Desktop Entry]"])], [], []⟩
        "/a/Ghost.AppImage").1.desktop = [("Other", ["[Desktop Entry]"])] :=
  integrate_notfound_writes_no_descriptor .noTool "/h" "/c"
    ⟨false, false, [("Other", ["[Desktop Entry]"])], [], []⟩
    "/a/Ghost.AppImage" (by decide)

/-- C10: `integrate_appimage` creates the applications and icons
directories on every path, including the failing one, and on the
`FileNotFoundError` path this directory creation is the only filesystem
mutation: the resulting state is the input state with only the two
directory flags set. -/
theorem integrate_ensures_dirs
    (env : ExtractEnv) (home cwd : String) (fs : FS) (p : String) :
    (integrate_appimage env home cwd fs p).1.appsDir = true ∧
    (integrate_appimage env home cwd fs p).1.iconsDir = true ∧
    (List.lookup (pyAbspath cwd (pyExpanduser home p)) fs.files = none →
      integrate_appimage env home cwd fs p =
        ({ fs with appsDir := true, iconsDir := true },
         .error (.fileNotFound (pyAbspath cwd (pyExpanduser home p))))) := by
  refine ⟨?_, ?_, ?_⟩
  · simp only [integrate_appimage]
    split
    · rfl
    · split
      · simp [write_desktop, extract_icon_appsDir, do_chmod, ensure_dirs]
      · rfl
  · simp only [integrate_appimage]
    split
    · rfl
    · split
      · simp [write_desktop, extract_icon_iconsDir, do_chmod, ensure_dirs]
      · rfl
  · intro h
    unfold integrate_appimage
    simp only [ensure_dirs]
    rw [show ({ fs with appsDir := true, iconsDir := true } : FS).files = fs.files from rfl, h]

/-- C10 (witness): both directories exist after a failing call and nothing
else changed. -/
theorem integrate_ensures_dirs_witness :
    integrate_appimage .noTool "/h" "/c"
        ⟨false, false, [], ["Old.png"], []⟩ "/a/Ghost.AppImage" =
      (⟨true, true, [], ["Old.png"], []⟩,
       .error (.fileNotFound "/a/Ghost.AppImage")) :=
  (integrate_ensures_dirs .noTool "/h" "/c"
    ⟨false, false, [], ["Old.png"], []⟩ "/a/Ghost.AppImage").2.2 (by decide)

/-- C7: `on_moved` for a non-directory event is exactly the synthetic
deletion of the old path followed by the synthetic creation of the new
path, each filtered by the case-insensitive `.appimage` rule; a rename
from a non-matching to a matching name yields only the integrate action,
and from matching to non-matching only the remove action. -/
theorem moved_decomposition (src dest : String) :
    (on_moved ⟨false, src, dest⟩ = on_deleted ⟨false, src⟩ ++ on_created ⟨false, dest⟩) ∧
    (is_appimage src = false → is_appimage dest = true →
      on_moved ⟨false, src, dest⟩ = [WatchAction.integrate dest]) ∧
    (is_appimage src = true → is_appimage dest = false →
      on_moved ⟨false, src, dest⟩ = [WatchAction.remove src]) := by
  refine ⟨?_, ?_, ?_⟩
  · cases h1 : is_appimage src <;> cases h2 : is_appimage dest <;>
      simp [on_moved, on_deleted, on_created, h1, h2]
  · intro h1 h2
    simp [on_moved, on_deleted, on_created, h1, h2]
  · intro h1 h2
    simp [on_moved, on_deleted, on_created, h1, h2]

/-- C7 (witness): a rename into a matching name produces only a create
action; a rename out of a matching name produces only a delete action. -/
theorem moved_decomposition_witness :
    on_moved ⟨false, "/w/a.txt", "/w/b.AppImage"⟩ =
      [WatchAction.integrate "/w/b.AppImage"] ∧
    on_moved ⟨false, "/w/a.AppImage", "/w/b.txt"⟩ =
      [WatchAction.remove "/w/a.AppImage"] :=
  ⟨(moved_decomposition "/w/a.txt" "/w/b.AppImage").2.1 (by decide) (by decide),
   (moved_decomposition "/w/a.AppImage" "/w/b.txt").2.2 (by decide) (by decide)⟩

/-- C5: `remove_appimage` with no matching descriptor returns `false` and
changes nothing (and consults only the descriptor directory — the bundle
files are irrelevant to the outcome); after a successful removal that
returned `true`, an immediately repeated removal of the same path returns
`false` and changes nothing. -/
theorem remove_absent_false_and_idempotent
    (home cwd : String) (fs : FS) (p : String) :
    (List.lookup (sanitize_name (pyAbspath cwd (pyExpanduser home p))) fs.desktop = none →
      remove_appimage home cwd fs p = (fs, false)) ∧
    (∀ fs2, remove_appimage home cwd fs p = (fs2, true) →
      remove_appimage home cwd fs2 p = (fs2, false)) ∧
    ((remove_appimage home cwd fs p).2 =
      (remove_appimage home cwd { fs with files := [] } p).2) := by
  refine ⟨?_, ?_, ?_⟩
  · intro h
    simp only [remove_appimage]
    rw [h]
  · intro fs2 h
    simp only [remove_appimage] at h ⊢
    cases hl : List.lookup (sanitize_name (pyAbspath cwd (pyExpanduser home p))) fs.desktop with
    | none =>
        rw [hl] at h
        dsimp only at h
        exact absurd (congrArg Prod.snd h) (by simp)
    | some lines =>
        rw [hl] at h
        dsimp only at h
        have hfs2 := congrArg Prod.fst h
        dsimp only at hfs2
        subst hfs2
        rw [remove_first_icon_desktop]
        dsimp only
        rw [lookup_filter_key_self]
  · simp only [remove_appimage]
    cases List.lookup (sanitize_name (pyAbspath cwd (pyExpanduser home p))) fs.desktop <;> rfl

/-- C5 (witness): removing a never-integrated path returns `false`; after
a successful removal, the repeated removal returns `false`. -/
theorem remove_absent_false_and_idempotent_witness :
    remove_appimage "/h" "/c"
        (⟨true, true, [], [], []⟩ : FS) "/a/Ghost.AppImage" =
      ((⟨true, true, [], [], []⟩ : FS), false) ∧
    remove_appimage "/h" "/c"
        ((remove_appimage "/h" "/c"
          (⟨true, true, [("App", ["[Desktop Entry]"])], [], []⟩ : FS)
          "/a/App.AppImage").1) "/a/App.AppImage" =
      ((remove_appimage "/h" "/c"
          (⟨true, true, [("App", ["[Desktop Entry]"])], [], []⟩ : FS)
          "/a/App.AppImage").1, false) := by
  refine ⟨(remove_absent_false_and_idempotent "/h" "/c"
      (⟨true, true, [], [], []⟩ : FS) "/a/Ghost.AppImage").1 (by decide),
    (remove_absent_false_and_idempotent "/h" "/c"
      (⟨true, true, [("App", ["[Desktop Entry]"])], [], []⟩ : FS)
      "/a/App.AppImage").2.1 _ (by decide)⟩

/-- C2 (counterexample): a bundle file that exists but cannot be chmodded
by the caller makes `integrate_appimage` raise `PermissionError`, which is
not `FileNotFoundError` — so it is not true that an existing file implies
that no subsequent step raises. -/
theorem integrate_chmod_failure_raises :
    (List.lookup "/a/App.AppImage"
        ((⟨false, false, [], [], [("/a/App.AppImage", ⟨420, false⟩)]⟩ : FS)).files).isSome
      = true ∧
    (integrate_appimage .noTool "/h" "/c"
        (⟨false, false, [], [], [("/a/App.AppImage", ⟨420, false⟩)]⟩ : FS)
        "/a/App.AppImage").2 =
      .error (.permissionError "/a/App.AppImage") ∧
    PyErr.permissionError "/a/App.AppImage" ≠
      PyErr.fileNotFound "/a/App.AppImage" := by
  refine ⟨by decide, rfl, by decide⟩

/-- C2 (amended): `integrate_appimage` raises `FileNotFoundError` iff the
resolved bundle file does not exist; when the file exists and the chmod
step succeeds (the caller may change its mode), no later step raises —
icon-extraction failures included — and a result dict is returned; when
the file exists but chmod fails, the `PermissionError` propagates. -/
theorem integrate_error_classification
    (env : ExtractEnv) (home cwd : String) (fs : FS) (p : String) :
    ((integrate_appimage env home cwd fs p).2 =
        .error (.fileNotFound (pyAbspath cwd (pyExpanduser home p))) ↔
      List.lookup (pyAbspath cwd (pyExpanduser home p)) fs.files = none) ∧
    (∀ info, List.lookup (pyAbspath cwd (pyExpanduser home p)) fs.files = some info →
      info.owned = true →
      ∃ r, (integrate_appimage env home cwd fs p).2 = .ok r) ∧
    (∀ info, List.lookup (pyAbspath cwd (pyExpanduser home p)) fs.files = some info →
      info.owned = false →
      (integrate_appimage env home cwd fs p).2 =
        .error (.permissionError (pyAbspath cwd (pyExpanduser home p)))) := by
  refine ⟨?_, ?_, ?_⟩
  · simp only [integrate_appimage, ensure_dirs]
    rw [show ({ fs with appsDir := true, iconsDir := true } : FS).files = fs.files from rfl]
    cases hl : List.lookup (pyAbspath cwd (pyExpanduser home p)) fs.files with
    | none => simp
    | some info =>
        cases ho : info.owned <;> simp [ho]
  · intro info hl ho
    simp only [integrate_appimage, ensure_dirs]
    rw [show ({ fs with appsDir := true, iconsDir := true } : FS).files = fs.files from rfl, hl]
    simp only [ho, if_true]
    exact ⟨_, rfl⟩
  · intro info hl ho
    simp only [integrate_appimage, ensure_dirs]
    rw [show ({ fs with appsDir := true, iconsDir := true } : FS).files = fs.files from rfl, hl]
    simp [ho]

/-- C2 (witness): with an owned existing bundle the call returns a result
dict; with a non-owned existing bundle it raises `PermissionError`. -/
theorem integrate_error_classification_witness :
    (∃ r, (integrate_appimage .noTool "/h" "/c"
        (⟨false, false, [], [], [("/a/App.AppImage", ⟨420, true⟩)]⟩ : FS)
        "/a/App.AppImage").2 = .ok r) ∧
    (integrate_appimage .noTool "/h" "/c"
        (⟨false, false, [], [], [("/a/NoPerm.AppImage", ⟨420, false⟩)]⟩ : FS)
        "/a/NoPerm.AppImage").2 =
      .error (.permissionError "/a/NoPerm.AppImage") :=
  ⟨(integrate_error_classification .noTool "/h" "/c"
      (⟨false, false, [], [], [("/a/App.AppImage", ⟨420, true⟩)]⟩ : FS)
      "/a/App.AppImage").2.1 ⟨420, true⟩ (by decide) (by decide),
   (integrate_error_classification .noTool "/h" "/c"
      (⟨false, false, [], [], [("/a/NoPerm.AppImage", ⟨420, false⟩)]⟩ : FS)
      "/a/NoPerm.AppImage").2.2 ⟨420, false⟩ (by decide) (by decide)⟩

/-- C8: every icon-extraction failure mode (missing `unsquashfs`, any
exception including the unpack timeout, no usable candidate) yields no
extracted icon, never fails `integrate_appimage`: the call still returns a
result dict whose `icon_path` is `None`, the icons directory gains no
file, and the written descriptor's `Icon` value is the generic system
icon identifier string. -/
theorem icon_failure_isolated
    (env : ExtractEnv) (home cwd : String) (fs : FS) (p : String) (info : FileInfo)
    (henv : env = .noTool ∨ env = .raises ∨ env = .noCandidate)
    (hl : List.lookup (pyAbspath cwd (pyExpanduser home p)) fs.files = some info)
    (ho : info.owned = true) :
    ∃ r, (integrate_appimage env home cwd fs p).2 = .ok r ∧
      r.icon_path = none ∧
      (integrate_appimage env home cwd fs p).1.icons = fs.icons ∧
      List.lookup r.app_name (integrate_appimage env home cwd fs p).1.desktop =
        some (desktop_lines r.app_name r.exec_path "application-x-executable") ∧
      "Icon=application-x-executable" ∈
        desktop_lines r.app_name r.exec_path "application-x-executable" := by
  rcases henv with rfl | rfl | rfl <;>
  · refine ⟨{ app_name := sanitize_name (pyAbspath cwd (pyExpanduser home p)),
              exec_path := pyAbspath cwd (pyExpanduser home p),
              desktop_path := desktop_path home
                (sanitize_name (pyAbspath cwd (pyExpanduser home p))),
              icon_path := none }, ?_, rfl, ?_, ?_, by simp [desktop_lines]⟩ <;>
    · simp only [integrate_appimage, ensure_dirs]
      rw [show ({ fs with appsDir := true, iconsDir := true } : FS).files = fs.files from rfl, hl]
      simp [ho, extract_icon, write_desktop, do_chmod, List.lookup_cons]

/-- C8 (witness): a concrete bundle integrated while extraction raises
still succeeds with the generic icon. -/
theorem icon_failure_isolated_witness :
    ∃ r, (integrate_appimage .raises "/h" "/c"
        (⟨false, false, [], [], [("/a/App.AppImage", ⟨420, true⟩)]⟩ : FS)
        "/a/App.AppImage").2 = .ok r ∧
      r.icon_path = none ∧
      (integrate_appimage .raises "/h" "/c"
        (⟨false, false, [], [], [("/a/App.AppImage", ⟨420, true⟩)]⟩ : FS)
        "/a/App.AppImage").1.icons = [] ∧
      List.lookup r.app_name ((integrate_appimage .raises "/h" "/c"
        (⟨false, false, [], [], [("/a/App.AppImage", ⟨420, true⟩)]⟩ : FS)
        "/a/App.AppImage").1.desktop) =
        some (desktop_lines r.app_name r.exec_path "application-x-executable") ∧
      "Icon=application-x-executable" ∈
        desktop_lines r.app_name r.exec_path "application-x-executable" :=
  icon_failure_isolated .raises "/h" "/c"
    (⟨false, false, [], [], [("/a/App.AppImage", ⟨420, true⟩)]⟩ : FS)
    "/a/App.AppImage" ⟨420, true⟩ (Or.inr (Or.inl rfl)) (by decide) (by decide)

/-- The key=value lines of a written descriptor, parsed in order. -/
theorem desktop_lines_filterMap (a x i : String) :
    (desktop_lines a x i).filterMap parseKV =
      [("Name", a), ("Exec", x), ("Icon", i), ("Type", "Application"),
       ("Categories", "Utility;"), ("Terminal", "false"),
       ("StartupNotify", "true"), ("Comment", "AppImage managed by KAppMan"),
       ("X-KAppMan-Source", x)] := by
  have hname : parseKV ("Name=" ++ a) = some ("Name", a) := by
    rw [show ("Name=" ++ a) = "Name" ++ "=" ++ a from rfl,
        parseKV_key_value "Name" a (by decide)]
  have hexec : parseKV ("Exec=" ++ x) = some ("Exec", x) := by
    rw [show ("Exec=" ++ x) = "Exec" ++ "=" ++ x from rfl,
        parseKV_key_value "Exec" x (by decide)]
  have hicon : parseKV ("Icon=" ++ i) = some ("Icon", i) := by
    rw [show ("Icon=" ++ i) = "Icon" ++ "=" ++ i from rfl,
        parseKV_key_value "Icon" i (by decide)]
  have hsrc : parseKV ("X-KAppMan-Source=" ++ x) = some ("X-KAppMan-Source", x) := by
    rw [show ("X-KAppMan-Source=" ++ x) = "X-KAppMan-Source" ++ "=" ++ x from rfl,
        parseKV_key_value "X-KAppMan-Source" x (by decide)]
  simp [desktop_lines, List.filterMap_cons, hname, hexec, hicon, hsrc,
        show parseKV "[Desktop Entry]" = none from by decide,
        show parseKV "Type=Application" = some ("Type", "Application") from by decide,
        show parseKV "Categories=Utility;" = some ("Categories", "Utility;") from by decide,
        show parseKV "Terminal=false" = some ("Terminal", "false") from by decide,
        show parseKV "StartupNotify=true" = some ("StartupNotify", "true") from by decide,
        show parseKV "Comment=AppImage managed by KAppMan" =
          some ("Comment", "AppImage managed by KAppMan") from by decide]

/-- C6: every successful `integrate_appimage` call stores a descriptor
whose key=value lines are exactly `Name`, `Exec`, `Icon`,
`Type=Application`, `Categories=Utility;`, `Terminal=false`,
`StartupNotify=true`, `Comment`, `X-KAppMan-Source` in this order, with
`Name` the derived display name and the marker value the absolute source
path of the bundle (the only other line is the `[Desktop Entry]` header,
which is not a key=value line). -/
theorem descriptor_serialization_order
    (env : ExtractEnv) (home cwd : String) (fs fs2 : FS) (p : String)
    (r : IntegrateResult)
    (h : integrate_appimage env home cwd fs p = (fs2, .ok r)) :
    ∃ icon_value,
      icon_value = r.icon_path.getD "application-x-executable" ∧
      List.lookup r.app_name fs2.desktop =
        some (desktop_lines r.app_name r.exec_path icon_value) ∧
      (desktop_lines r.app_name r.exec_path icon_value).filterMap parseKV =
        [("Name", r.app_name), ("Exec", r.exec_path), ("Icon", icon_value),
         ("Type", "Application"), ("Categories", "Utility;"),
         ("Terminal", "false"), ("StartupNotify", "true"),
         ("Comment", "AppImage managed by KAppMan"),
         ("X-KAppMan-Source", r.exec_path)] ∧
      r.exec_path = pyAbspath cwd (pyExpanduser home p) ∧
      r.app_name = sanitize_name r.exec_path := by
  simp only [integrate_appimage, ensure_dirs] at h
  cases hl : List.lookup (pyAbspath cwd (pyExpanduser home p)) fs.files with
  | none =>
      rw [hl] at h
      dsimp only at h
      exact absurd (congrArg Prod.snd h) (by simp)
  | some info =>
      rw [hl] at h
      dsimp only at h
      cases ho : info.owned with
      | false =>
          rw [ho] at h
          simp at h
      | true =>
          rw [ho] at h
          rw [if_pos rfl] at h
          have hfs2 := congrArg Prod.fst h
          have hrr := congrArg Prod.snd h
          dsimp only at hfs2 hrr
          have hr := Except.ok.inj hrr
          subst hr
          subst hfs2
          refine ⟨_, rfl, ?_, desktop_lines_filterMap _ _ _, rfl, rfl⟩
          simp [write_desktop, List.lookup_cons]

/-- C6 (witness): the descriptor written for a concrete bundle. -/
theorem descriptor_serialization_order_witness :
    ∃ icon_value,
      icon_value = (none : Option String).getD "application-x-executable" ∧
      List.lookup "App"
        ((⟨true, true,
            [("App", desktop_lines "App" "/a/App.AppImage" "application-x-executable")],
            [], [("/a/App.AppImage", ⟨493, true⟩)]⟩ : FS)).desktop =
        some (desktop_lines "App" "/a/App.AppImage" icon_value) ∧
      (desktop_lines "App" "/a/App.AppImage" icon_value).filterMap parseKV =
        [("Name", "App"), ("Exec", "/a/App.AppImage"), ("Icon", icon_value),
         ("Type", "Application"), ("Categories", "Utility;"),
         ("Terminal", "false"), ("StartupNotify", "true"),
         ("Comment", "AppImage managed by KAppMan"),
         ("X-KAppMan-Source", "/a/App.AppImage")] ∧
      ("/a/App.AppImage" : String) = pyAbspath "/c" (pyExpanduser "/h" "/a/App.AppImage") ∧
      ("App" : String) = sanitize_name "/a/App.AppImage" :=
  descriptor_serialization_order .noTool "/h" "/c"
    (⟨false, false, [], [], [("/a/App.AppImage", ⟨420, true⟩)]⟩ : FS)
    (⟨true, true,
      [("App", desktop_lines "App" "/a/App.AppImage" "application-x-executable")],
      [], [("/a/App.AppImage", ⟨493, true⟩)]⟩ : FS)
    "/a/App.AppImage"
    ⟨"App", "/a/App.AppImage", "/h/.local/share/applications/App.desktop", none⟩
    rfl

/-- C1 (counterexample): a descriptor file without the marker key whose
filename matches the derived display name is deleted by
`remove_appimage`, refuting the claim that such descriptors are immune to
`remove`. -/
theorem remove_deletes_unmarked_descriptor :
    markerIn ["[Desktop Entry]", "Name=Foo"] = false ∧
    remove_appimage "/h" "/c"
        (⟨true, true, [("Foo", ["[Desktop Entry]", "Name=Foo"])], [], []⟩ : FS)
        "/w/Foo.AppImage" =
      ((⟨true, true, [], [], []⟩ : FS), true) := by
  refine ⟨by decide, by decide⟩

/-- C1 (amended): a descriptor without the marker key is never returned
by `list_integrated`; `remove_appimage`, however, deletes any descriptor
whose filename matches the display name derived from the bundle path,
marker or no marker: on a filename collision it returns `true` and the
unmarked descriptor is gone afterwards. -/
theorem ownership_isolation_amended
    (home cwd : String) (fs : FS) (name : String) (lines : List String) (p : String)
    (hnd : (fs.desktop.map Prod.fst).Nodup)
    (hmem : (name, lines) ∈ fs.desktop)
    (hunmarked : markerIn lines = false) :
    (∀ e ∈ list_integrated home fs, e.app_name ≠ name) ∧
    (sanitize_name (pyAbspath cwd (pyExpanduser home p)) = name →
      (remove_appimage home cwd fs p).2 = true ∧
      List.lookup name (remove_appimage home cwd fs p).1.desktop = none) := by
  constructor
  · intro e he
    cases ha : fs.appsDir with
    | false => simp [list_integrated, ha] at he
    | true =>
        simp only [list_integrated, ha, if_true] at he
        rw [List.mem_filterMap] at he
        obtain ⟨ent, hent, heq⟩ := he
        cases hm : markerIn ent.2 with
        | false => rw [hm] at heq; simp at heq
        | true =>
            rw [hm] at heq
            simp only [if_true, Option.some.injEq] at heq
            intro hcontra
            have hent2 : ent ∈ fs.desktop := by
              have := List.mem_mergeSort.mp (show ent ∈ sortedDesktopFiles fs from hent)
              exact this
            have h1 : List.lookup name fs.desktop = some lines :=
              lookup_of_mem_nodup hnd hmem
            have hname : ent.1 = name := by
              rw [← heq] at hcontra
              exact hcontra
            have h2 : List.lookup name fs.desktop = some ent.2 := by
              refine lookup_of_mem_nodup hnd ?_
              rw [← hname]
              exact hent2
            have : lines = ent.2 := by
              have := h1.symm.trans h2
              exact Option.some.inj this
            rw [← this] at hm
            rw [hunmarked] at hm
            cases hm
  · intro hsan
    have hlook : List.lookup
        (sanitize_name (pyAbspath cwd (pyExpanduser home p))) fs.desktop = some lines := by
      rw [hsan]
      exact lookup_of_mem_nodup hnd hmem
    simp only [remove_appimage]
    rw [hlook]
    dsimp only
    refine ⟨rfl, ?_⟩
    rw [remove_first_icon_desktop]
    dsimp only
    rw [hsan, lookup_filter_key_self]

/-- C1 (witness): the unmarked `Foo.desktop` is invisible to listing but
deleted by a colliding `remove_appimage` call. -/
theorem ownership_isolation_amended_witness :
    (∀ e ∈ list_integrated "/h"
        (⟨true, true, [("Foo", ["[Desktop Entry]", "Name=Foo"])], [], []⟩ : FS),
      e.app_name ≠ "Foo") ∧
    ((remove_appimage "/h" "/c"
        (⟨true, true, [("Foo", ["[Desktop Entry]", "Name=Foo"])], [], []⟩ : FS)
        "/w/Foo.AppImage").2 = true ∧
      List.lookup "Foo" ((remove_appimage "/h" "/c"
        (⟨true, true, [("Foo", ["[Desktop Entry]", "Name=Foo"])], [], []⟩ : FS)
        "/w/Foo.AppImage").1.desktop) = none) := by
  have h := ownership_isolation_amended "/h" "/c"
      (⟨true, true, [("Foo", ["[Desktop Entry]", "Name=Foo"])], [], []⟩ : FS)
      "Foo" ["[Desktop Entry]", "Name=Foo"] "/w/Foo.AppImage"
      (by decide) (by decide) (by decide)
  exact ⟨h.1, h.2 (by decide)⟩

end KAppMan
